import Mathlib

/-!
# Portfolio front-end glue: a shallow embedding

The development embeds the two scripts of the repository, `project.js` and
`script.js`.  Handlers are modelled as pure functions from their inputs (the
clicked element, the platform environment and the outcome of every network
call) to a trace of observable effects and the final state of the element.

Conventions of the embedding:

* a JSON value is a `JVal`; a number is carried by its ECMAScript `ToString`
  rendering, from which both observations the scripts make of a number (its
  text and its truthiness) are recovered;
* a JSON object lists its own keys in the order `Object.keys` enumerates them;
* strings are sequences of Unicode scalar values;
* platform functions whose result depends on locale or on Unicode tables
  (`toLowerCase`, `toLocaleDateString`) and ambient values (`new Date()`,
  `navigator.userAgent`, `window.location.href`) are fields of `Env`.
-/

namespace Portfolio

/-! ## JSON values and the ECMAScript conversions the scripts rely on -/

/-- JSON values.  `num` holds the `ToString` rendering of the number. -/
inductive JVal where
  | null
  | bool (b : Bool)
  | num (text : String)
  | str (s : String)
  | arr (items : List JVal)
  | obj (members : List (String × JVal))

/-- A JSON object: its own enumerable keys with their values, in the order
`Object.keys` reports them. -/
abbrev Payload := List (String × JVal)

/-- ECMAScript `ToBoolean`.  A number is falsy exactly when it is `0`, `-0`
(both rendered `"0"`) or `NaN`. -/
def truthy : JVal → Bool
  | .null => false
  | .bool b => b
  | .num t => !(t == "0" || t == "NaN")
  | .str s => !(s == "")
  | .arr _ => true
  | .obj _ => true

mutual
/-- ECMAScript `ToString`, as applied by a template literal. -/
def toStr : JVal → String
  | .null => "null"
  | .bool true => "true"
  | .bool false => "false"
  | .num t => t
  | .str s => s
  | .arr xs => joinWith "," xs
  | .obj _ => "[object Object]"
termination_by structural v => v
/-- The function `Array.prototype.join`: `null` elements contribute the empty
string, every other element its `ToString`. -/
def joinWith (sep : String) : List JVal → String
  | [] => ""
  | x :: rest =>
    (match x with | .null => "" | v => toStr v)
      ++ (match rest with | [] => "" | _ => sep) ++ joinWith sep rest
termination_by structural xs => xs
end

/-- Property read `data[key]` on an object; `none` is `undefined`. -/
def getKey (data : Payload) (key : String) : Option JVal :=
  data.lookup key

/-- Property read `value.key` for a key that is neither an array index nor a
built-in property name: defined on objects only. -/
def getProp : JVal → String → Option JVal
  | .obj members, key => getKey members key
  | _, _ => none

/-- The function `Object.keys`. -/
def objectKeys (data : Payload) : List String :=
  data.map Prod.fst

/-- Truthiness of a possibly `undefined` value. -/
def truthyOpt : Option JVal → Bool
  | some v => truthy v
  | none => false

/-- Template-literal rendering of a possibly `undefined` value. -/
def tplStr : Option JVal → String
  | some v => toStr v
  | none => "undefined"

/-! ## Strings -/

/-- White space and line terminators of ECMAScript, the characters
`String.prototype.trim` strips. -/
def isJsWhiteSpace (c : Char) : Bool :=
  let n := c.toNat
  n == 0x09 || n == 0x0A || n == 0x0B || n == 0x0C || n == 0x0D || n == 0x20
    || n == 0xA0 || n == 0x1680 || (0x2000 ≤ n && n ≤ 0x200A) || n == 0x2028
    || n == 0x2029 || n == 0x202F || n == 0x205F || n == 0x3000 || n == 0xFEFF

/-- The function `String.prototype.trim`. -/
def trim (s : String) : String :=
  ⟨((s.data.dropWhile isJsWhiteSpace).reverse.dropWhile isJsWhiteSpace).reverse⟩

/-- Whether `sub` starts the character list `l`. -/
def startsWithChars : List Char → List Char → Bool
  | [], _ => true
  | _ :: _, [] => false
  | a :: as, b :: bs => a == b && startsWithChars as bs

/-- Whether `sub` occurs somewhere in the character list `l`. -/
def includesChars (sub : List Char) : List Char → Bool
  | [] => startsWithChars sub []
  | c :: cs => startsWithChars sub (c :: cs) || includesChars sub cs

/-- The function `String.prototype.includes`. -/
def includes (s sub : String) : Bool :=
  includesChars sub.data s.data

/-- Lower-casing of the ASCII letters, every other character unchanged: the
behaviour of `toLowerCase` on ASCII text. -/
def asciiLower (s : String) : String :=
  ⟨s.data.map fun c => if 65 ≤ c.toNat ∧ c.toNat ≤ 90 then Char.ofNat (c.toNat + 32) else c⟩

/-- Platform functions and ambient values read by the scripts. -/
structure Env where
  /-- The function `String.prototype.toLowerCase`. -/
  toLowerCase : String → String
  /-- The composite `new Date(v).toLocaleDateString()`. -/
  toLocaleDateString : JVal → String
  /-- The value of `new Date().toISOString()`. -/
  now : String
  /-- The value of `navigator.userAgent`. -/
  userAgent : String
  /-- The value of `window.location.href`. -/
  locationHref : String

/-- A concrete environment on which the definitions evaluate. -/
def sampleEnv : Env where
  toLowerCase := asciiLower
  toLocaleDateString := fun v => toStr v
  now := "2024-01-01T00:00:00.000Z"
  userAgent := "agent"
  locationHref := "http://localhost/"

/-! ## `JSON.stringify` -/

/-- Hexadecimal digit, lower case. -/
def hexDigit (n : Nat) : Char :=
  if n < 10 then Char.ofNat (48 + n) else Char.ofNat (87 + n)

/-- Escape of one character inside a JSON string (`QuoteJSONString`). -/
def quoteChar (c : Char) : List Char :=
  let n := c.toNat
  if n == 34 then [Char.ofNat 92, Char.ofNat 34]
  else if n == 92 then [Char.ofNat 92, Char.ofNat 92]
  else if n == 8 then [Char.ofNat 92, 'b']
  else if n == 12 then [Char.ofNat 92, 'f']
  else if n == 10 then [Char.ofNat 92, 'n']
  else if n == 13 then [Char.ofNat 92, 'r']
  else if n == 9 then [Char.ofNat 92, 't']
  else if n < 32 then [Char.ofNat 92, 'u', '0', '0', hexDigit (n / 16), hexDigit (n % 16)]
  else [c]

/-- A string as a JSON string literal. -/
def quoteJSON (s : String) : String :=
  ⟨Char.ofNat 34 :: (s.data.flatMap quoteChar ++ [Char.ofNat 34])⟩

mutual
/-- The function `JSON.stringify` on a JSON value. -/
def jsonStringify : JVal → String
  | .null => "null"
  | .bool true => "true"
  | .bool false => "false"
  | .num t => if t == "NaN" || t == "Infinity" || t == "-Infinity" then "null" else t
  | .str s => quoteJSON s
  | .arr xs => "[" ++ stringifyItems xs ++ "]"
  | .obj ms => "\x7b" ++ stringifyMembers ms ++ "\x7d"
termination_by structural v => v
/-- Array elements, comma separated. -/
def stringifyItems : List JVal → String
  | [] => ""
  | x :: rest => jsonStringify x ++ (match rest with | [] => "" | _ => ",") ++ stringifyItems rest
termination_by structural xs => xs
/-- Object members, comma separated. -/
def stringifyMembers : List (String × JVal) → String
  | [] => ""
  | (k, v) :: rest =>
    quoteJSON k ++ ":" ++ jsonStringify v ++ (match rest with | [] => "" | _ => ",")
      ++ stringifyMembers rest
termination_by structural ms => ms
end

/-! ## Errors, requests, effects, elements -/

/-- A thrown JavaScript error. -/
structure JsError where
  name : String
  message : String

/-- The error raised by a property read on `null`. -/
def nullRead : JsError := ⟨"TypeError", "Cannot read properties of null"⟩

/-- The arguments of one `fetch` call. -/
structure Request where
  url : String
  method : String
  headers : List (String × String)
  body : Option String

/-- A received HTTP response; `json` is the outcome of `response.json()`. -/
structure Response (β : Type) where
  status : Nat
  json : Except JsError β

/-- The flag `response.ok`: the status lies in 200..299. -/
def Response.ok {β : Type} (r : Response β) : Bool :=
  200 ≤ r.status && r.status ≤ 299

/-- How a `fetch` promise settles. -/
inductive FetchOutcome (β : Type) where
  | rejected (e : JsError)
  | resolved (r : Response β)

/-- One argument of a console call. -/
inductive LogArg where
  | text (s : String)
  | value (v : JVal)
  | error (e : JsError)

/-- Observable actions of the scripts, in the order they happen. -/
inductive Effect where
  /-- The call `event.preventDefault()`. -/
  | preventDefault
  /-- The call `fetch(url, config)`. -/
  | fetch (req : Request)
  | consoleLog (args : List LogArg)
  | consoleError (args : List LogArg)
  /-- The call `window.open(url, target)`. -/
  | windowOpen (url : JVal) (target : String)
  /-- The assignment `window.location.href = value`. -/
  | setLocationHref (value : JVal)
  /-- A notification node with the given class and text appended to the body
  (`showNotification`); its timers are not part of the trace. -/
  | notification (className : String) (message : JVal)
  /-- A `project-modal` node with the given `innerHTML` appended to the body
  and shown (`displayProjectData`). -/
  | modal (innerHTML : String)
  /-- The call `alert(message)`. -/
  | alert (message : String)
  /-- A temporary anchor with the given `href` and `download` appended,
  clicked and removed. -/
  | downloadAnchor (href : JVal) (download : JVal)
  /-- The class `active` removed from every nav link, then added to the
  clicked one. -/
  | navActivate

/-- The state of a trigger element that the handlers read or write. -/
structure Element where
  textContent : String
  disabled : Bool
  classList : List String

/-- The method `classList.add`. -/
def classAdd (c : String) (l : List String) : List String :=
  if l.contains c then l else l ++ [c]

/-- The method `classList.remove`. -/
def classRemove (c : String) (l : List String) : List String :=
  l.filter fun x => !(x == c)

/-- What running a handler to completion yields. -/
structure Run where
  effects : List Effect
  element : Element
  settled : Except JsError Unit

/-! ## `project.js` -/

/-- The keys `formatProjectData` does not render generically. -/
def handledKeys : List String :=
  ["description", "technologies", "features", "status", "lastUpdated", "url", "redirect",
    "message"]

/-- The text shown when nothing was rendered. -/
def placeholder : String := "<p>No additional information available.</p>"

/-- The string `html` that `formatProjectData` has accumulated when it reaches
its `return` statement. -/
def projectHtml (env : Env) (data : Payload) : String :=
  let html := ""
  let html :=
    if truthyOpt (getKey data "description") then
      html ++ ("<p><strong>Description:</strong> " ++ tplStr (getKey data "description") ++ "</p>")
    else html
  let html :=
    match getKey data "technologies" with
    | some (.arr xs) => html ++ ("<p><strong>Technologies:</strong> " ++ joinWith ", " xs ++ "</p>")
    | _ => html
  let html :=
    match getKey data "features" with
    | some (.arr xs) =>
      let html := html ++ "<p><strong>Features:</strong></p><ul>"
      let html := xs.foldl (fun h feature => h ++ ("<li>" ++ toStr feature ++ "</li>")) html
      html ++ "</ul>"
    | _ => html
  let html :=
    if truthyOpt (getKey data "status") then
      html ++ ("<p><strong>Status:</strong> " ++ tplStr (getKey data "status") ++ "</p>")
    else html
  let html :=
    match getKey data "lastUpdated" with
    | some v =>
      if truthy v then
        html ++ ("<p><strong>Last Updated:</strong> " ++ env.toLocaleDateString v ++ "</p>")
      else html
    | none => html
  (objectKeys data).foldl
    (fun h key =>
      if !(handledKeys.contains key) then
        h ++ ("<p><strong>" ++ key ++ ":</strong> " ++ tplStr (getKey data key) ++ "</p>")
      else h)
    html

/-- The function `formatProjectData` of `project.js`: the accumulated `html`,
or the placeholder when it is empty (`html || placeholder`). -/
def formatProjectData (env : Env) (data : Payload) : String :=
  let html := projectHtml env data
  if html == "" then placeholder else html

/-- The `innerHTML` assigned by `createModal`. -/
def createModal (env : Env) (projectTitle linkType : String) (data : Payload) : String :=
  "\n        <div class=\"modal-content\">\n            <div class=\"modal-header\">\n"
    ++ "                <h3>" ++ projectTitle ++ " - " ++ linkType ++ "</h3>\n"
    ++ "                <button class=\"modal-close\">&times;</button>\n"
    ++ "            </div>\n            <div class=\"modal-body\">\n                "
    ++ formatProjectData env data
    ++ "\n            </div>\n            <div class=\"modal-footer\">\n"
    ++ "                <button class=\"modal-close btn\">Close</button>\n"
    ++ "            </div>\n        </div>\n    "

/-- The function `displayProjectData`. -/
def displayProjectData (env : Env) (data : Payload) (linkType projectTitle : String) :
    List Effect :=
  [.modal (createModal env projectTitle linkType data)]

/-- The function `showNotification`. -/
def showNotification (message : JVal) (type : String) : List Effect :=
  [.notification ("notification notification-" ++ type) message]

/-- The function `showSuccessMessage`. -/
def showSuccessMessage (message : JVal) : List Effect :=
  showNotification message "success"

/-- The function `showErrorMessage`. -/
def showErrorMessage (message : String) : List Effect :=
  showNotification (.str message) "error"

/-- The function `handleProjectResponse`. -/
def handleProjectResponse (env : Env) (data : Payload) (linkType projectTitle : String) :
    List Effect :=
  Effect.consoleLog
      [.text "Received data for", .text projectTitle, .text ":", .value (.obj data)]
    :: (if truthyOpt (getKey data "url") then
          match getKey data "url" with
          | some url => [.windowOpen url "_blank"]
          | none => []
        else if truthyOpt (getKey data "redirect") then
          match getKey data "redirect" with
          | some target => [.setLocationHref target]
          | none => []
        else if truthyOpt (getKey data "message") then
          match getKey data "message" with
          | some message => showSuccessMessage message
          | none => []
        else displayProjectData env data linkType projectTitle)

/-- The `switch` of `handleProjectLinkClick` that picks the endpoint. -/
def selectEndpoint (env : Env) (linkText : String) : String :=
  match env.toLowerCase linkText with
  | "live demo" => "/api/projects/demo"
  | "github" => "/api/projects/github"
  | "app store" => "/api/projects/appstore"
  | _ => "/api/projects/link"

/-- The request `handleProjectLinkClick` passes to `fetch`. -/
def projectRequest (env : Env) (linkText projectTitle : String) : Request where
  url := selectEndpoint env linkText
  method := "POST"
  headers := [("Content-Type", "application/json")]
  body := some (jsonStringify (.obj [("projectName", .str projectTitle), ("linkType", .str linkText)]))

/-- The `try` block of `handleProjectLinkClick`: its effects and whether it
completed or threw. -/
def projectTry (env : Env) (linkText projectTitle : String)
    (net : Request → FetchOutcome Payload) : List Effect × Except JsError Unit :=
  let req := projectRequest env linkText projectTitle
  match net req with
  | .rejected e => ([.fetch req], .error e)
  | .resolved response =>
    if !response.ok then
      ([.fetch req], .error ⟨"Error", "HTTP error! status: " ++ toString response.status⟩)
    else
      match response.json with
      | .error e => ([.fetch req], .error e)
      | .ok data => (.fetch req :: handleProjectResponse env data linkText projectTitle, .ok ())

/-- The `catch` block of `handleProjectLinkClick`. -/
def projectCatch (env : Env) (linkText projectTitle : String) (error : JsError) : List Effect :=
  Effect.consoleError [.text "Error fetching project data:", .error error]
    :: showErrorMessage ("Failed to load " ++ env.toLowerCase linkText ++ " for " ++ projectTitle)

/-- The handler `handleProjectLinkClick`.  `link` is the clicked element;
`card` is `none` when no `.project-card` encloses it, `some none` when the card
has no `.project-title`, and otherwise the `textContent` of the title. -/
def handleProjectLinkClick (env : Env) (link : Element) (card : Option (Option String))
    (net : Request → FetchOutcome Payload) : Run :=
  let linkText := trim link.textContent
  match card with
  | none => { effects := [.preventDefault], element := link, settled := .error nullRead }
  | some none => { effects := [.preventDefault], element := link, settled := .error nullRead }
  | some (some titleText) =>
    let projectTitle := trim titleText
    let originalText := link.textContent
    let busy : Element :=
      { link with textContent := "Loading...", classList := classAdd "loading" link.classList }
    let body := projectTry env linkText projectTitle net
    let handled :=
      match body.2 with
      | .ok _ => []
      | .error e => projectCatch env linkText projectTitle e
    let restored : Element :=
      { busy with textContent := originalText, classList := classRemove "loading" busy.classList }
    { effects := .preventDefault :: (body.1 ++ handled), element := restored, settled := .ok () }

/-! ## `script.js` -/

/-- The constant `API_BASE_URL`. -/
def API_BASE_URL : String := "http://localhost:8000/api"

/-- The request `makeRequest` passes to `fetch`: the `config` it builds, with
a body only when `data` is truthy. -/
def requestOf (endpoint method : String) (data : JVal) : Request :=
  ⟨API_BASE_URL ++ endpoint, method, [("Content-Type", "application/json")],
    if truthy data then some (jsonStringify data) else none⟩

/-- The function `makeRequest`: the effects of the call and the settlement of
the promise it returns (`.error` is a rejection). -/
def makeRequest (net : Request → FetchOutcome JVal) (endpoint method : String) (data : JVal) :
    List Effect × Except JsError JVal :=
  let req := requestOf endpoint method data
  match net req with
  | .rejected error =>
    ([.fetch req, .consoleError [.text "API Request failed:", .error error]], .error error)
  | .resolved response =>
    if !response.ok then
      let error : JsError := ⟨"Error", "HTTP error! status: " ++ toString response.status⟩
      ([.fetch req, .consoleError [.text "API Request failed:", .error error]], .error error)
    else
      match response.json with
      | .error error =>
        ([.fetch req, .consoleError [.text "API Request failed:", .error error]], .error error)
      | .ok result => ([.fetch req], .ok result)

/-- The function `showLoading`: the relabelled element and the returned
original text. -/
def showLoading (element : Element) : Element × String :=
  (⟨"Loading...", true, element.classList⟩, element.textContent)

/-- The function `hideLoading`. -/
def hideLoading (element : Element) (originalText : String) : Element :=
  ⟨originalText, false, element.classList⟩

/-- The shared shape of `loadHomeContent`, `loadSkills`, `loadEducation` and
`loadProjects`: one GET whose result or failure is logged. -/
def loadContent (net : Request → FetchOutcome JVal) (endpoint loaded failed : String) :
    List Effect :=
  let r := makeRequest net endpoint "GET" .null
  match r.2 with
  | .ok content => r.1 ++ [.consoleLog [.text loaded, .value content]]
  | .error error => r.1 ++ [.consoleError [.text failed, .error error]]

/-- The function `loadHomeContent`. -/
def loadHomeContent (net : Request → FetchOutcome JVal) : List Effect :=
  loadContent net "/content/home" "Home content loaded:" "Failed to load home content:"

/-- The function `loadSkills`. -/
def loadSkills (net : Request → FetchOutcome JVal) : List Effect :=
  loadContent net "/content/skills" "Skills loaded:" "Failed to load skills:"

/-- The function `loadEducation`. -/
def loadEducation (net : Request → FetchOutcome JVal) : List Effect :=
  loadContent net "/content/education" "Education loaded:" "Failed to load education:"

/-- The function `loadProjects`. -/
def loadProjects (net : Request → FetchOutcome JVal) : List Effect :=
  loadContent net "/content/projects" "Projects loaded:" "Failed to load projects:"

/-- The body of the resume-download analytics event: `timestamp`, `userAgent`,
`referrer`. -/
def resumeEvent (env : Env) : JVal :=
  .obj [("timestamp", .str env.now), ("userAgent", .str env.userAgent),
    ("referrer", .str env.locationHref)]

/-- The body of the social-click analytics event: `platform`, `timestamp`,
`referrer`. -/
def socialEvent (env : Env) (platform : String) : JVal :=
  .obj [("platform", .str platform), ("timestamp", .str env.now),
    ("referrer", .str env.locationHref)]

/-- The body of the navigation analytics event: `section`, `timestamp`,
`userAgent`. -/
def navigationEvent (env : Env) (sectionName : String) : JVal :=
  .obj [("section", .str sectionName), ("timestamp", .str env.now),
    ("userAgent", .str env.userAgent)]

/-- The analytics request of the nav-link listener. -/
def navigationTracking (env : Env) (net : Request → FetchOutcome JVal) (sectionName : String) :
    List Effect × Except JsError JVal :=
  makeRequest net "/analytics/navigation" "POST" (navigationEvent env sectionName)

/-- The section-specific `switch` of the nav-link listener. -/
def loadSection (net : Request → FetchOutcome JVal) (sectionName : String) : List Effect :=
  match sectionName with
  | "home" => loadHomeContent net
  | "skills" => loadSkills net
  | "education" => loadEducation net
  | "projects" => loadProjects net
  | _ => []

/-- The click listener that `setupNavigation` attaches to a nav link; `target`
is the clicked link. -/
def navigationClick (env : Env) (target : Element) (net : Request → FetchOutcome JVal) : Run :=
  let sectionName := env.toLowerCase (trim target.textContent)
  let active : Element :=
    ⟨target.textContent, target.disabled, classAdd "active" (classRemove "active" target.classList)⟩
  let tracked := navigationTracking env net sectionName
  let rest :=
    match tracked.2 with
    | .ok _ =>
      Effect.consoleLog [.text ("Navigation to " ++ sectionName ++ " tracked")]
        :: loadSection net sectionName
    | .error error =>
      [.consoleError [.text ("Failed to track navigation to " ++ sectionName ++ ":"), .error error]]
  ⟨.preventDefault :: .navActivate :: (tracked.1 ++ rest), active, .ok ()⟩

/-- The function `getSocialPlatform`, from the `className` of the icon on. -/
def getSocialPlatform (classes : String) : String :=
  if includes classes "linkedin" then "linkedin"
  else if includes classes "github" then "github"
  else if includes classes "twitter" || includes classes "x-twitter" then "twitter"
  else if includes classes "instagram" then "instagram"
  else "unknown"

/-- The table `fallbackUrls` of `handleSocialFallback`. -/
def fallbackUrls : List (String × String) :=
  [("linkedin", "https://linkedin.com/in/ranjit"), ("github", "https://github.com/ranjit"),
    ("twitter", "https://twitter.com/ranjit"), ("instagram", "https://instagram.com/ranjit")]

/-- The function `handleSocialFallback`, for a platform name returned by
`getSocialPlatform`. -/
def handleSocialFallback (platform : String) : List Effect :=
  match fallbackUrls.lookup platform with
  | some url => if url == "" then [] else [.windowOpen (.str url) "_blank"]
  | none => []

/-- The analytics request of the social-icon listener. -/
def socialTracking (env : Env) (net : Request → FetchOutcome JVal) (platform : String) :
    List Effect × Except JsError JVal :=
  makeRequest net "/analytics/social-click" "POST" (socialEvent env platform)

/-- The `try` block of the social-icon listener. -/
def socialTry (env : Env) (net : Request → FetchOutcome JVal) (platform : String) :
    List Effect × Except JsError Unit :=
  let tracked := socialTracking env net platform
  match tracked.2 with
  | .error error => (tracked.1, .error error)
  | .ok _ =>
    let fetched := makeRequest net ("/social/" ++ platform) "GET" .null
    match fetched.2 with
    | .error error => (tracked.1 ++ fetched.1, .error error)
    | .ok socialData =>
      if truthy socialData && truthyOpt (getProp socialData "url") then
        match getProp socialData "url" with
        | some url => (tracked.1 ++ fetched.1 ++ [.windowOpen url "_blank"], .ok ())
        | none => (tracked.1 ++ fetched.1, .ok ())
      else
        (tracked.1 ++ fetched.1
          ++ [.consoleLog [.text ("No URL configured for " ++ platform)]], .ok ())

/-- The click listener that `setupSocialMedia` attaches to a social link.
`icon` is the `className` of the `i` element inside the link, `none` when the
link has no such element. -/
def socialClick (env : Env) (link : Element) (icon : Option String)
    (net : Request → FetchOutcome JVal) : Run :=
  match icon with
  | none => ⟨[.preventDefault], link, .error nullRead⟩
  | some classes =>
    let platform := getSocialPlatform classes
    let body := socialTry env net platform
    let handled :=
      match body.2 with
      | .ok _ => []
      | .error error =>
        Effect.consoleError [.text ("Failed to handle " ++ platform ++ " click:"), .error error]
          :: handleSocialFallback platform
    ⟨.preventDefault :: (body.1 ++ handled), link, .ok ()⟩

/-- The analytics request of the resume-button listener. -/
def resumeTracking (env : Env) (net : Request → FetchOutcome JVal) :
    List Effect × Except JsError JVal :=
  makeRequest net "/analytics/resume-download" "POST" (resumeEvent env)

/-- The `try` block of the resume-button listener. -/
def resumeTry (env : Env) (net : Request → FetchOutcome JVal) :
    List Effect × Except JsError Unit :=
  let tracked := resumeTracking env net
  match tracked.2 with
  | .error error => (tracked.1, .error error)
  | .ok _ =>
    let fetched := makeRequest net "/resume/download" "GET" .null
    match fetched.2 with
    | .error error => (tracked.1 ++ fetched.1, .error error)
    | .ok resumeData =>
      if truthy resumeData && truthyOpt (getProp resumeData "downloadUrl") then
        match getProp resumeData "downloadUrl" with
        | some href =>
          let download :=
            match getProp resumeData "filename" with
            | some name => if truthy name then name else .str "Ranjit_Resume.pdf"
            | none => .str "Ranjit_Resume.pdf"
          (tracked.1 ++ fetched.1
            ++ [.downloadAnchor href download, .consoleLog [.text "Resume download initiated"]],
            .ok ())
        | none => (tracked.1 ++ fetched.1, .error ⟨"Error", "No download URL received"⟩)
      else (tracked.1 ++ fetched.1, .error ⟨"Error", "No download URL received"⟩)

/-- The click listener that `setupResumeDownload` attaches to the resume
button `resumeBtn`. -/
def resumeDownloadClick (env : Env) (resumeBtn : Element) (net : Request → FetchOutcome JVal) :
    Run :=
  let loading := showLoading resumeBtn
  let originalText := loading.2
  let body := resumeTry env net
  let handled :=
    match body.2 with
    | .ok _ => []
    | .error error =>
      [.consoleError [.text "Failed to download resume:", .error error],
        .alert "Sorry, unable to download resume at the moment. Please try again later."]
  ⟨.preventDefault :: (body.1 ++ handled), hideLoading loading.1 originalText, .ok ()⟩

/-- The requests passed to `fetch` in a trace, in order. -/
def fetchesOf : List Effect → List Request
  | [] => []
  | .fetch req :: rest => req :: fetchesOf rest
  | _ :: rest => fetchesOf rest

/-! ## The rendered lines, as the specification words them -/

/-- Concatenation of a list of lines. -/
def concatLines : List String → String
  | [] => ""
  | l :: ls => l ++ concatLines ls

/-- The five fields that `formatProjectData` renders under a label of their
own, in rendering order. -/
def recognizedFields : List String :=
  ["description", "technologies", "features", "status", "lastUpdated"]

/-- The labelled line of `description`. -/
def descriptionLine (v : JVal) : String :=
  "<p><strong>Description:</strong> " ++ toStr v ++ "</p>"

/-- The labelled line of `technologies`. -/
def technologiesLine (xs : List JVal) : String :=
  "<p><strong>Technologies:</strong> " ++ joinWith ", " xs ++ "</p>"

/-- The labelled block of `features`: a heading and one list item per entry. -/
def featuresLine (xs : List JVal) : String :=
  "<p><strong>Features:</strong></p><ul>"
    ++ (concatLines (xs.map fun feature => "<li>" ++ toStr feature ++ "</li>") ++ "</ul>")

/-- The labelled line of `status`. -/
def statusLine (v : JVal) : String :=
  "<p><strong>Status:</strong> " ++ toStr v ++ "</p>"

/-- The labelled line of `lastUpdated`. -/
def lastUpdatedLine (env : Env) (v : JVal) : String :=
  "<p><strong>Last Updated:</strong> " ++ env.toLocaleDateString v ++ "</p>"

/-- The generic `key: value` line of a key. -/
def extraLine (data : Payload) (key : String) : String :=
  "<p><strong>" ++ key ++ ":</strong> " ++ tplStr (getKey data key) ++ "</p>"

/-- The line of a field rendered when its value is truthy. -/
def lineIfTruthy (line : JVal → String) : Option JVal → List String
  | some v => if truthy v then [line v] else []
  | none => []

/-- The line of a field rendered when its value is an array. -/
def lineIfArray (line : List JVal → String) : Option JVal → List String
  | some (.arr xs) => [line xs]
  | _ => []

/-- The lines of the recognised fields: one for each field whose value is
truthy (and, for `technologies` and `features`, an array), in the fixed
order. -/
def fieldLines (env : Env) (data : Payload) : List String :=
  lineIfTruthy descriptionLine (getKey data "description")
    ++ lineIfArray technologiesLine (getKey data "technologies")
    ++ lineIfArray featuresLine (getKey data "features")
    ++ lineIfTruthy statusLine (getKey data "status")
    ++ lineIfTruthy (lastUpdatedLine env) (getKey data "lastUpdated")

/-- The generic lines: one for every key outside `handledKeys`, in key
enumeration order. -/
def extraLines (data : Payload) : List String :=
  ((objectKeys data).filter fun key => !(handledKeys.contains key)).map (extraLine data)

/-- All lines of a payload. -/
def renderedLines (env : Env) (data : Payload) : List String :=
  fieldLines env data ++ extraLines data

/-- The console line `handleProjectResponse` writes first. -/
def receivedLog (projectTitle : String) (data : Payload) : Effect :=
  .consoleLog [.text "Received data for", .text projectTitle, .text ":", .value (.obj data)]

/-- The string `sub` occurs in `s` as a contiguous substring. -/
def occursIn (sub s : String) : Prop :=
  ∃ before after : String, s = before ++ sub ++ after

/-- A backend whose analytics routes are unreachable while every other route
answers 200 with a payload carrying both a `url` and a `downloadUrl`. -/
def analyticsDown : Request → FetchOutcome JVal := fun req =>
  if includes req.url "/analytics/" then .rejected ⟨"TypeError", "Failed to fetch"⟩
  else
    .resolved ⟨200, .ok (.obj [("url", .str "https://example.com/profile"),
      ("downloadUrl", .str "/files/resume.pdf")])⟩

/-- The windows opened in a trace: the arguments of every `window.open`, in
order. -/
def openedOf : List Effect → List (JVal × String)
  | [] => []
  | .windowOpen url target :: rest => (url, target) :: openedOf rest
  | _ :: rest => openedOf rest

/-- A gateway request fails: the transport rejects, or the response status is
outside the success range. -/
def gatewayFails (net : Request → FetchOutcome JVal) (req : Request) : Prop :=
  (∃ e, net req = .rejected e) ∨ (∃ r, net req = .resolved r ∧ r.ok = false)

/-- The entry of the fallback table for a platform, as a window to open: none
when the table has no entry for it. -/
def fallbackEntry (platform : String) : List (JVal × String) :=
  match fallbackUrls.lookup platform with
  | some url => [(.str url, "_blank")]
  | none => []

/-- A backend that answers every request with status 200 and an empty JSON
object. -/
def emptyBackend : Request → FetchOutcome JVal := fun _ => .resolved ⟨200, .ok (.obj [])⟩

/-- A backend that answers every request with status 204 and an empty body,
on which `response.json()` rejects. -/
def emptyBodyBackend : Request → FetchOutcome JVal := fun _ =>
  .resolved ⟨204, .error ⟨"SyntaxError", "Unexpected end of JSON input"⟩⟩

/-- A gateway call throws: the request fails, or the body of a success
response does not parse as JSON. -/
def gatewayThrows (net : Request → FetchOutcome JVal) (req : Request) : Prop :=
  gatewayFails net req ∨ ∃ r e, net req = .resolved r ∧ r.ok = true ∧ r.json = .error e

/-! ## Auxiliary lemmas -/

theorem concatLines_append (xs ys : List String) :
    concatLines (xs ++ ys) = concatLines xs ++ concatLines ys := by
  induction xs with
  | nil => simp [concatLines]
  | cons x xs ih => simp [concatLines, ih, String.append_assoc]

theorem foldl_append_map (g : JVal → String) (xs : List JVal) (init : String) :
    xs.foldl (fun h x => h ++ g x) init = init ++ concatLines (xs.map g) := by
  induction xs generalizing init with
  | nil => simp [concatLines]
  | cons x xs ih => simp [concatLines, ih, String.append_assoc]

theorem foldl_append_filter (c : String → Bool) (f : String → String) (keys : List String)
    (init : String) :
    keys.foldl (fun h key => if c key then h ++ f key else h) init
      = init ++ concatLines ((keys.filter c).map f) := by
  induction keys generalizing init with
  | nil => simp [concatLines]
  | cons k ks ih =>
    by_cases hk : c k = true
    · simp [concatLines, ih, hk, String.append_assoc]
    · simp [concatLines, ih, hk]

theorem step_truthy (label : String) (o : Option JVal) (html : String) (render : JVal → String)
    (hr : ∀ v, o = some v → render v = toStr v) :
    (if truthyOpt o = true then html ++ (label ++ tplStr o ++ "</p>") else html)
      = html ++ concatLines (lineIfTruthy (fun v => label ++ render v ++ "</p>") o) := by
  cases o with
  | none => simp [truthyOpt, lineIfTruthy, concatLines]
  | some v =>
    by_cases hv : truthy v = true
    · simp [truthyOpt, lineIfTruthy, concatLines, hv, tplStr, hr v rfl]
    · simp [truthyOpt, lineIfTruthy, concatLines, hv]

theorem projectHtml_eq (env : Env) (data : Payload) :
    projectHtml env data = concatLines (renderedLines env data) := by
  unfold projectHtml renderedLines fieldLines extraLines
  lift_lets
  intro h0 h1 h2 h3 h4 h5 h6
  have e1 : h1 = concatLines (lineIfTruthy descriptionLine (getKey data "description")) := by
    have := step_truthy "<p><strong>Description:</strong> " (getKey data "description") h0 toStr
      (fun _ _ => rfl)
    simpa [h1, h0, descriptionLine] using this
  have e2 : h2 = h1 ++ concatLines (lineIfArray technologiesLine (getKey data "technologies")) := by
    simp only [h2]
    split
    · rename_i hq
      simp [lineIfArray, concatLines, technologiesLine, hq]
    · rename_i hq
      unfold lineIfArray
      split
      · rename_i hq2
        exact absurd hq2 (hq _)
      · simp [concatLines]
  have e4 : h4 = h2 ++ concatLines (lineIfArray featuresLine (getKey data "features")) := by
    simp only [h4]
    split
    · rename_i hq
      simp [lineIfArray, concatLines, featuresLine, hq, foldl_append_map, String.append_assoc, h3]
    · rename_i hq
      unfold lineIfArray
      split
      · rename_i hq2
        exact absurd hq2 (hq _)
      · simp [concatLines]
  have e5 : h5 = h4 ++ concatLines (lineIfTruthy statusLine (getKey data "status")) := by
    have := step_truthy "<p><strong>Status:</strong> " (getKey data "status") h4 toStr
      (fun _ _ => rfl)
    simpa [h5, statusLine] using this
  have e6 : h6 = h5 ++ concatLines (lineIfTruthy (lastUpdatedLine env) (getKey data "lastUpdated")) := by
    simp only [h6]
    split
    · rename_i hq
      split <;> simp_all [lineIfTruthy, concatLines, lastUpdatedLine]
    · rename_i hq
      simp [lineIfTruthy, concatLines, hq]
  have e7 := foldl_append_filter (fun key => !(handledKeys.contains key)) (extraLine data)
    (objectKeys data) h6
  simp only [extraLine] at e7
  rw [e7, e6, e5, e4, e2, e1]
  simp only [concatLines_append, String.append_assoc, extraLine]

theorem lineIfTruthy_mem {line : JVal → String} {o : Option JVal} {l : String}
    (h : l ∈ lineIfTruthy line o) : ∃ v, l = line v := by
  cases o with
  | none => simp [lineIfTruthy] at h
  | some v =>
    by_cases hv : truthy v = true
    · exact ⟨v, by simpa [lineIfTruthy, hv] using h⟩
    · simp [lineIfTruthy, hv] at h

theorem lineIfArray_mem {line : List JVal → String} {o : Option JVal} {l : String}
    (h : l ∈ lineIfArray line o) : ∃ xs, l = line xs := by
  unfold lineIfArray at h
  split at h
  · exact ⟨_, by simpa using h⟩
  · simp at h

/-- Every rendered line opens with the same tag pair. -/
theorem renderedLines_open (env : Env) (data : Payload) (l : String)
    (h : l ∈ renderedLines env data) : ∃ t, l = "<p><strong>" ++ t := by
  simp only [renderedLines, fieldLines, extraLines, List.mem_append, List.mem_map] at h
  rcases h with ((((h | h) | h) | h) | h) | ⟨k, _, h⟩
  · obtain ⟨v, rfl⟩ := lineIfTruthy_mem h
    exact ⟨"Description:</strong> " ++ toStr v ++ "</p>", by simp [descriptionLine, ← String.append_assoc]⟩
  · obtain ⟨v, rfl⟩ := lineIfArray_mem h
    exact ⟨"Technologies:</strong> " ++ joinWith ", " v ++ "</p>", by simp [technologiesLine, ← String.append_assoc]⟩
  · obtain ⟨v, rfl⟩ := lineIfArray_mem h
    exact ⟨_, rfl⟩
  · obtain ⟨v, rfl⟩ := lineIfTruthy_mem h
    exact ⟨"Status:</strong> " ++ toStr v ++ "</p>", by simp [statusLine, ← String.append_assoc]⟩
  · obtain ⟨v, rfl⟩ := lineIfTruthy_mem h
    exact ⟨"Last Updated:</strong> " ++ env.toLocaleDateString v ++ "</p>", by simp [lastUpdatedLine, ← String.append_assoc]⟩
  · subst h
    exact ⟨k ++ ":</strong> " ++ tplStr (getKey data k) ++ "</p>", by simp [extraLine, String.append_assoc]⟩

theorem concatLines_open (lines : List String) (hne : lines ≠ [])
    (h : ∀ l ∈ lines, ∃ t, l = "<p><strong>" ++ t) :
    ∃ t, concatLines lines = "<p><strong>" ++ t := by
  cases lines with
  | nil => exact absurd rfl hne
  | cons l ls =>
    obtain ⟨t, ht⟩ := h l (List.mem_cons_self _ _)
    exact ⟨t ++ concatLines ls, by simp [concatLines, ht, String.append_assoc]⟩

theorem open_ne_empty (t : String) : "<p><strong>" ++ t ≠ "" := by
  intro h
  have := congrArg String.data h
  simp at this

theorem open_ne_placeholder (t : String) : "<p><strong>" ++ t ≠ placeholder := by
  intro h
  have := congrArg String.data h
  simp [placeholder] at this

/-- The function `formatProjectData` in terms of the rendered lines. -/
theorem formatProjectData_eq (env : Env) (data : Payload) :
    formatProjectData env data
      = if renderedLines env data = [] then placeholder
        else concatLines (renderedLines env data) := by
  unfold formatProjectData
  simp only [projectHtml_eq]
  by_cases hl : renderedLines env data = []
  · simp [hl, concatLines]
  · obtain ⟨t, ht⟩ := concatLines_open _ hl (renderedLines_open env data)
    simp [hl, ht, open_ne_empty]

/-! ## Response rendering (`handleProjectResponse`, `formatProjectData`) -/

/-- C1, as stated, fails: a payload with a `url` key whose value is the empty
string opens no window; `handleProjectResponse` builds the modal instead. -/
theorem handleProjectResponse_empty_url_builds_modal :
    getKey [("url", JVal.str "")] "url" = some (JVal.str "") ∧
    handleProjectResponse sampleEnv [("url", .str "")] "GitHub" "Chat WebApp"
      = [receivedLog "Chat WebApp" [("url", .str "")],
          .modal (createModal sampleEnv "Chat WebApp" "GitHub" [("url", .str "")])] :=
  ⟨rfl, rfl⟩

/-- C1, amended: for every payload whose `url` value is truthy, whatever other
keys are present, `handleProjectResponse` logs the payload and opens exactly
that URL in a new window; it sets no location, shows no toast and builds no
modal.  A payload whose `url` value is falsy (the empty string, `null`, `0`,
`false`) is handled as one without a `url` key: no window is opened, and the
handler sets the location to a truthy `redirect`, else shows a truthy
`message`, else builds the modal. -/
theorem handleProjectResponse_truthy_url (env : Env) (data : Payload)
    (linkType projectTitle : String) :
    (∀ url, getKey data "url" = some url → truthy url = true →
      handleProjectResponse env data linkType projectTitle
        = [receivedLog projectTitle data, .windowOpen url "_blank"]) ∧
    (truthyOpt (getKey data "url") = false →
      (∀ target, getKey data "redirect" = some target → truthy target = true →
        handleProjectResponse env data linkType projectTitle
          = [receivedLog projectTitle data, .setLocationHref target]) ∧
      (truthyOpt (getKey data "redirect") = false →
        ∀ message, getKey data "message" = some message → truthy message = true →
        handleProjectResponse env data linkType projectTitle
          = receivedLog projectTitle data :: showSuccessMessage message) ∧
      (truthyOpt (getKey data "redirect") = false →
        truthyOpt (getKey data "message") = false →
        handleProjectResponse env data linkType projectTitle
          = receivedLog projectTitle data
            :: displayProjectData env data linkType projectTitle) ∧
      openedOf (handleProjectResponse env data linkType projectTitle) = []) := by
  refine ⟨fun url hurl htruthy => ?_, fun hfalsy => ⟨fun target hr ht => ?_,
    fun hr message hm ht => ?_, fun hr hm => ?_, ?_⟩⟩
  · simp [handleProjectResponse, receivedLog, hurl, truthyOpt, htruthy]
  · simp only [handleProjectResponse, receivedLog, hfalsy]
    simp [hr, truthyOpt, ht]
  · simp only [handleProjectResponse, receivedLog, hfalsy, hr]
    simp [hm, truthyOpt, ht]
  · simp only [handleProjectResponse, receivedLog, hfalsy, hr, hm]
    simp
  · simp only [handleProjectResponse, hfalsy, openedOf, Bool.false_eq_true, if_false]
    split
    · split <;> rfl
    · split
      · split <;> rfl
      · rfl

theorem handleProjectResponse_truthy_url_witness :
    getKey [("message", JVal.str "hi"), ("url", .str "https://example.com/demo"),
        ("redirect", .str "/next")] "url" = some (JVal.str "https://example.com/demo") ∧
    truthy (JVal.str "https://example.com/demo") = true ∧
    handleProjectResponse sampleEnv
        [("message", .str "hi"), ("url", .str "https://example.com/demo"),
          ("redirect", .str "/next")] "GitHub" "Chat WebApp"
      = [receivedLog "Chat WebApp"
            [("message", .str "hi"), ("url", .str "https://example.com/demo"),
              ("redirect", .str "/next")],
          .windowOpen (.str "https://example.com/demo") "_blank"] ∧
    truthyOpt (getKey [("url", JVal.num "0"), ("redirect", .str "/next")] "url") = false ∧
    handleProjectResponse sampleEnv [("url", .num "0"), ("redirect", .str "/next")]
        "GitHub" "Chat WebApp"
      = [receivedLog "Chat WebApp" [("url", .num "0"), ("redirect", .str "/next")],
          .setLocationHref (.str "/next")] ∧
    truthyOpt (getKey [("url", JVal.null), ("message", .str "queued")] "url") = false ∧
    openedOf (handleProjectResponse sampleEnv [("url", .null), ("message", .str "queued")]
        "GitHub" "Chat WebApp") = [] :=
  ⟨rfl, rfl,
    (handleProjectResponse_truthy_url sampleEnv _ "GitHub" "Chat WebApp").1 _ rfl rfl,
    rfl,
    ((handleProjectResponse_truthy_url sampleEnv [("url", .num "0"), ("redirect", .str "/next")]
      "GitHub" "Chat WebApp").2 rfl).1 _ rfl rfl,
    rfl,
    ((handleProjectResponse_truthy_url sampleEnv [("url", .null), ("message", .str "queued")]
      "GitHub" "Chat WebApp").2 rfl).2.2.2⟩

/-- C2, as stated, fails: a payload with a `redirect` key holding the empty
string and no `url` key leaves the location alone; the modal is built. -/
theorem handleProjectResponse_empty_redirect_builds_modal :
    getKey [("redirect", JVal.str "")] "redirect" = some (JVal.str "") ∧
    getKey [("redirect", JVal.str "")] "url" = none ∧
    handleProjectResponse sampleEnv [("redirect", .str "")] "GitHub" "Chat WebApp"
      = [receivedLog "Chat WebApp" [("redirect", .str "")],
          .modal (createModal sampleEnv "Chat WebApp" "GitHub" [("redirect", .str "")])] :=
  ⟨rfl, rfl, rfl⟩

/-- C2, amended: for every payload with no `url` key whose `redirect` value is
truthy, `handleProjectResponse` logs the payload and sets the page location to
the `redirect` value; it opens no window, shows no toast and builds no
modal. -/
theorem handleProjectResponse_truthy_redirect (env : Env) (data : Payload)
    (linkType projectTitle : String) (target : JVal)
    (hurl : getKey data "url" = none) (hredirect : getKey data "redirect" = some target)
    (htruthy : truthy target = true) :
    handleProjectResponse env data linkType projectTitle
      = [receivedLog projectTitle data, .setLocationHref target] := by
  simp [handleProjectResponse, receivedLog, hurl, hredirect, truthyOpt, htruthy]

theorem handleProjectResponse_truthy_redirect_witness :
    getKey [("message", JVal.str "hi"), ("redirect", .str "/next")] "url" = none ∧
    getKey [("message", JVal.str "hi"), ("redirect", .str "/next")] "redirect"
      = some (JVal.str "/next") ∧
    truthy (JVal.str "/next") = true ∧
    handleProjectResponse sampleEnv [("message", .str "hi"), ("redirect", .str "/next")]
        "Live Demo" "Portfolio Website"
      = [receivedLog "Portfolio Website" [("message", .str "hi"), ("redirect", .str "/next")],
          .setLocationHref (.str "/next")] :=
  ⟨rfl, rfl, rfl,
    handleProjectResponse_truthy_redirect sampleEnv _ "Live Demo" "Portfolio Website" _ rfl rfl rfl⟩

/-- C3, as stated, fails: a payload whose only key is `description`, holding
the empty string, has a recognised field present, yet no line is emitted for
it; the result is the placeholder. -/
theorem formatProjectData_skips_empty_description :
    getKey [("description", JVal.str "")] "description" = some (JVal.str "") ∧
    objectKeys [("description", JVal.str "")] = ["description"] ∧
    projectHtml sampleEnv [("description", .str "")] = "" ∧
    formatProjectData sampleEnv [("description", .str "")] = placeholder :=
  ⟨rfl, rfl, rfl, rfl⟩

/-- C3, amended: for every payload containing none of `url`, `redirect`,
`message`, `formatProjectData` accumulates exactly one labelled line for each
recognised field whose value is truthy (for `technologies` and `features`:
whose value is an array), in the order description, technologies, features,
status, lastUpdated, followed by one `key: value` line for every other key in
key enumeration order; it returns that text, or the placeholder when no line
was emitted. -/
theorem formatProjectData_lines (env : Env) (data : Payload)
    (hnone : ∀ k ∈ ["url", "redirect", "message"], k ∉ objectKeys data) :
    projectHtml env data
      = concatLines (fieldLines env data
          ++ ((objectKeys data).filter fun key => !(recognizedFields.contains key)).map
              (extraLine data)) ∧
    formatProjectData env data
      = if fieldLines env data
            ++ ((objectKeys data).filter fun key => !(recognizedFields.contains key)).map
                (extraLine data) = []
        then placeholder
        else concatLines (fieldLines env data
          ++ ((objectKeys data).filter fun key => !(recognizedFields.contains key)).map
              (extraLine data)) := by
  have hfilter : (objectKeys data).filter (fun key => !(recognizedFields.contains key))
      = (objectKeys data).filter (fun key => !(handledKeys.contains key)) := by
    apply List.filter_congr
    intro k hk
    have h1 : k ≠ "url" := fun h => hnone "url" (by simp) (h ▸ hk)
    have h2 : k ≠ "redirect" := fun h => hnone "redirect" (by simp) (h ▸ hk)
    have h3 : k ≠ "message" := fun h => hnone "message" (by simp) (h ▸ hk)
    simp [recognizedFields, handledKeys, h1, h2, h3]
  rw [hfilter]
  exact ⟨projectHtml_eq env data, formatProjectData_eq env data⟩

theorem formatProjectData_lines_witness :
    (∀ k ∈ ["url", "redirect", "message"],
      k ∉ objectKeys [("stars", JVal.num "12"), ("status", .str "live"),
        ("description", .str ""), ("features", .arr [.str "chat", .null])]) ∧
    projectHtml sampleEnv [("stars", .num "12"), ("status", .str "live"),
        ("description", .str ""), ("features", .arr [.str "chat", .null])]
      = "<p><strong>Features:</strong></p><ul><li>chat</li><li>null</li></ul>"
        ++ "<p><strong>Status:</strong> live</p><p><strong>stars:</strong> 12</p>" :=
  ⟨by decide,
    (formatProjectData_lines sampleEnv [("stars", .num "12"), ("status", .str "live"),
        ("description", .str ""), ("features", .arr [.str "chat", .null])]
      (by decide)).1.trans (by decide)⟩

/-- C4, as stated, fails in its converse half: a line is emitted for a
`description` whose text is the placeholder itself, and the placeholder then
does occur in the result. -/
theorem formatProjectData_placeholder_inside_line :
    renderedLines sampleEnv [("description", .str placeholder)] ≠ [] ∧
    formatProjectData sampleEnv [("description", .str placeholder)]
      = "<p><strong>Description:</strong> " ++ placeholder ++ "</p>" ∧
    includes (formatProjectData sampleEnv [("description", .str placeholder)]) placeholder
      = true := by
  decide

/-- C4, amended: for every payload all of whose keys are among `url`,
`redirect`, `message` (none of the recognised fields, no extra field; the empty
object in particular) `formatProjectData` returns exactly the placeholder;
conversely, whenever a line is emitted the result is exactly the concatenation
of the emitted lines and is not the placeholder; no emitted line is the
placeholder; and the result is the placeholder exactly when no line is
emitted. -/
theorem formatProjectData_placeholder (env : Env) (data : Payload) :
    ((∀ k ∈ objectKeys data, k ∈ ["url", "redirect", "message"]) →
      formatProjectData env data = placeholder) ∧
    (renderedLines env data ≠ [] →
      formatProjectData env data = concatLines (renderedLines env data) ∧
      formatProjectData env data ≠ placeholder) ∧
    placeholder ∉ renderedLines env data ∧
    (formatProjectData env data = placeholder ↔ renderedLines env data = []) := by
  have hsome : renderedLines env data ≠ [] →
      formatProjectData env data = concatLines (renderedLines env data) ∧
      formatProjectData env data ≠ placeholder := by
    intro hl
    obtain ⟨t, ht⟩ := concatLines_open _ hl (renderedLines_open env data)
    have heq : formatProjectData env data = concatLines (renderedLines env data) := by
      rw [formatProjectData_eq, if_neg hl]
    exact ⟨heq, by rw [heq, ht]; exact open_ne_placeholder t⟩
  have hnil : renderedLines env data = [] → formatProjectData env data = placeholder := by
    intro hl
    rw [formatProjectData_eq, if_pos hl]
  have hline : placeholder ∉ renderedLines env data := by
    intro hmem
    obtain ⟨t, ht⟩ := renderedLines_open env data _ hmem
    exact open_ne_placeholder t ht.symm
  refine ⟨fun hkeys => hnil ?_, hsome, hline, ⟨fun h => ?_, hnil⟩⟩
  · have habsent : ∀ k, k ∈ recognizedFields → getKey data k = none := by
      intro k hk
      simp only [getKey, List.lookup_eq_none_iff]
      intro p hp
      have hmem : p.1 ∈ objectKeys data := List.mem_map_of_mem Prod.fst hp
      have := hkeys _ hmem
      simp only [bne_iff_ne, ne_eq]
      intro hk2
      rw [← hk2] at this
      revert hk this
      simp only [recognizedFields, List.mem_cons, List.mem_singleton, List.not_mem_nil, or_false]
      rintro (rfl | rfl | rfl | rfl | rfl) <;> decide
    have hextra : extraLines data = [] := by
      simp only [extraLines, List.map_eq_nil_iff, List.filter_eq_nil_iff]
      intro k hk
      have := hkeys k hk
      simp only [List.mem_cons, List.mem_singleton, List.not_mem_nil, or_false] at this
      rcases this with rfl | rfl | rfl <;> decide
    simp [renderedLines, fieldLines, hextra, habsent, recognizedFields, lineIfTruthy,
      lineIfArray]
  · by_contra hl
    exact (hsome hl).2 h

theorem formatProjectData_placeholder_witness :
    (∀ k ∈ objectKeys [("message", JVal.str "")], k ∈ ["url", "redirect", "message"]) ∧
    formatProjectData sampleEnv [("message", .str "")] = placeholder ∧
    formatProjectData sampleEnv [] = placeholder ∧
    renderedLines sampleEnv [("status", .str "live")] ≠ [] ∧
    formatProjectData sampleEnv [("status", .str "live")] = "<p><strong>Status:</strong> live</p>" :=
  ⟨by decide,
    (formatProjectData_placeholder sampleEnv [("message", .str "")]).1 (by decide),
    (formatProjectData_placeholder sampleEnv []).1 (by decide),
    by decide,
    ((formatProjectData_placeholder sampleEnv [("status", .str "live")]).2.1 (by decide)).1.trans
      (by decide)⟩

/-! ## Requests issued by the handlers -/

theorem fetchesOf_append (xs ys : List Effect) :
    fetchesOf (xs ++ ys) = fetchesOf xs ++ fetchesOf ys := by
  induction xs with
  | nil => rfl
  | cons x xs ih => cases x <;> simp [fetchesOf, ih]

theorem fetchesOf_makeRequest (net : Request → FetchOutcome JVal) (endpoint method : String)
    (data : JVal) :
    fetchesOf (makeRequest net endpoint method data).1 = [requestOf endpoint method data] := by
  unfold makeRequest
  simp only []
  split
  · rfl
  · split
    · rfl
    · split <;> rfl

theorem fetchesOf_handleProjectResponse (env : Env) (data : Payload)
    (linkType projectTitle : String) :
    fetchesOf (handleProjectResponse env data linkType projectTitle) = [] := by
  unfold handleProjectResponse
  simp only [fetchesOf]
  split
  · split <;> rfl
  · split
    · split <;> rfl
    · split
      · split <;> rfl
      · rfl

theorem fetchesOf_handleProjectLinkClick (env : Env) (link : Element) (titleText : String)
    (net : Request → FetchOutcome Payload) :
    fetchesOf (handleProjectLinkClick env link (some (some titleText)) net).effects
      = [projectRequest env (trim link.textContent) (trim titleText)] := by
  simp only [handleProjectLinkClick, projectTry, fetchesOf, fetchesOf_append]
  split
  · simp [fetchesOf, projectCatch, showErrorMessage, showNotification]
  · split
    · simp [fetchesOf, projectCatch, showErrorMessage, showNotification]
    · split
      · simp [fetchesOf, projectCatch, showErrorMessage, showNotification]
      · rename_i data _
        have h := fetchesOf_handleProjectResponse env data (trim link.textContent) (trim titleText)
        simp only [handleProjectResponse, fetchesOf] at h
        simp [fetchesOf, h]

/-! ## Busy state of the trigger element -/

/-- C5, as stated, fails for the resume button: clicked while it is already
disabled and labelled `Loading...` (a second click during a pending request),
its label is restored but it ends enabled, not in its pre-click disabled
state. -/
theorem resumeDownloadClick_ends_enabled :
    (resumeDownloadClick sampleEnv ⟨"Loading...", true, ["btn"]⟩
        (fun _ => .rejected ⟨"TypeError", "Failed to fetch"⟩)).element.textContent
      = "Loading..." ∧
    (resumeDownloadClick sampleEnv ⟨"Loading...", true, ["btn"]⟩
        (fun _ => .rejected ⟨"TypeError", "Failed to fetch"⟩)).element.disabled = false ∧
    (resumeDownloadClick sampleEnv ⟨"Loading...", true, ["btn"]⟩
        (fun _ => .rejected ⟨"TypeError", "Failed to fetch"⟩)).element.disabled
      ≠ (Element.mk "Loading..." true ["btn"]).disabled := by
  decide

/-- C5, amended: for every trigger element and every outcome of its requests,
once the handler has settled the element's `textContent` equals its pre-click
`textContent`, for `handleProjectLinkClick` and for the resume button alike.
`handleProjectLinkClick` leaves the disabled state as it was; the resume
handler leaves the button enabled, which is its pre-click state exactly when it
was enabled at the click. -/
theorem busy_state_restored (env : Env) (link : Element) (card : Option (Option String))
    (net : Request → FetchOutcome Payload) (resumeBtn : Element)
    (net2 : Request → FetchOutcome JVal) :
    (handleProjectLinkClick env link card net).element.textContent = link.textContent ∧
    (handleProjectLinkClick env link card net).element.disabled = link.disabled ∧
    (resumeDownloadClick env resumeBtn net2).element.textContent = resumeBtn.textContent ∧
    (resumeDownloadClick env resumeBtn net2).element.disabled = false ∧
    (resumeDownloadClick env resumeBtn net2).settled = .ok () ∧
    ((resumeDownloadClick env resumeBtn net2).element.disabled = resumeBtn.disabled
      ↔ resumeBtn.disabled = false) := by
  refine ⟨?_, ?_, rfl, rfl, rfl, ?_⟩
  · rcases card with _ | _ | t <;> rfl
  · rcases card with _ | _ | t <;> rfl
  · show false = resumeBtn.disabled ↔ resumeBtn.disabled = false
    exact eq_comm

/-! ## The project-link request -/

/-- C6: the endpoint `handleProjectLinkClick` requests is determined by the
lower-cased trimmed label alone: it is `/api/projects/demo` iff that equals
`live demo`, `/api/projects/github` iff it equals `github`,
`/api/projects/appstore` iff it equals `app store`, and `/api/projects/link`
for every other label, also one that merely contains such a word. -/
theorem endpoint_by_label (env : Env) (link : Element) (titleText : String)
    (net : Request → FetchOutcome Payload) :
    (fetchesOf (handleProjectLinkClick env link (some (some titleText)) net).effects).map
        Request.url = [selectEndpoint env (trim link.textContent)] ∧
    (selectEndpoint env (trim link.textContent) = "/api/projects/demo"
      ↔ env.toLowerCase (trim link.textContent) = "live demo") ∧
    (selectEndpoint env (trim link.textContent) = "/api/projects/github"
      ↔ env.toLowerCase (trim link.textContent) = "github") ∧
    (selectEndpoint env (trim link.textContent) = "/api/projects/appstore"
      ↔ env.toLowerCase (trim link.textContent) = "app store") ∧
    (selectEndpoint env (trim link.textContent) = "/api/projects/link"
      ↔ env.toLowerCase (trim link.textContent) ∉ ["live demo", "github", "app store"]) ∧
    (∀ other : Element,
      env.toLowerCase (trim other.textContent) = env.toLowerCase (trim link.textContent) →
      selectEndpoint env (trim other.textContent) = selectEndpoint env (trim link.textContent)) ∧
    selectEndpoint sampleEnv (trim " GitHub Repo ") = "/api/projects/link" ∧
    selectEndpoint sampleEnv (trim "\n  LIVE demo ") = "/api/projects/demo" := by
  refine ⟨?_, ?_, ?_, ?_, ?_, ?_, by decide, by decide⟩
  · rw [fetchesOf_handleProjectLinkClick]
    rfl
  all_goals
    unfold selectEndpoint
    try intro other hother
    try rw [hother]
    try (split <;> simp_all)

/-- C7: for every project-link click, with `L` the label and `T` the project
title as the handler reads them (the texts of the link and of the title
element, surrounding whitespace trimmed), `handleProjectLinkClick` issues
exactly one request, a POST with the JSON content type to the endpoint
selected by `L`, whose body is the JSON serialization of exactly
`{projectName: T, linkType: L}`, `L` in its original letter case.  For
`L = GitHub` and `T = Chat WebApp` (on a platform whose `toLowerCase` maps
`GitHub` to `github`) the request is POST `/api/projects/github` with body
`{"projectName":"Chat WebApp","linkType":"GitHub"}`. -/
theorem handleProjectLinkClick_request (env : Env) (link : Element) (titleText : String)
    (net : Request → FetchOutcome Payload) :
    fetchesOf (handleProjectLinkClick env link (some (some titleText)) net).effects
      = [⟨selectEndpoint env (trim link.textContent), "POST",
          [("Content-Type", "application/json")],
          some (jsonStringify (.obj [("projectName", .str (trim titleText)),
            ("linkType", .str (trim link.textContent))]))⟩] ∧
    jsonStringify (.obj [("projectName", .str (trim titleText)),
        ("linkType", .str (trim link.textContent))])
      = "\x7b\"projectName\":" ++ quoteJSON (trim titleText) ++ ",\"linkType\":"
          ++ quoteJSON (trim link.textContent) ++ "\x7d" ∧
    (env.toLowerCase "GitHub" = "github" → trim link.textContent = "GitHub" →
      trim titleText = "Chat WebApp" →
      fetchesOf (handleProjectLinkClick env link (some (some titleText)) net).effects
        = [⟨"/api/projects/github", "POST", [("Content-Type", "application/json")],
            some "\x7b\"projectName\":\"Chat WebApp\",\"linkType\":\"GitHub\"\x7d"⟩]) := by
  refine ⟨fetchesOf_handleProjectLinkClick env link titleText net, ?_, ?_⟩
  · have h1 : quoteJSON "projectName" = "\"projectName\"" := by decide
    have h2 : quoteJSON "linkType" = "\"linkType\"" := by decide
    rw [String.ext_iff]
    simp [jsonStringify, stringifyMembers, h1, h2]
  · intro hlower hlabel htitle
    rw [fetchesOf_handleProjectLinkClick, hlabel, htitle]
    simp only [projectRequest, selectEndpoint, hlower]
    rfl

theorem handleProjectLinkClick_request_witness :
    sampleEnv.toLowerCase "GitHub" = "github" ∧
    trim (Element.mk "  GitHub " false ["project-link"]).textContent = "GitHub" ∧
    trim "\n      Chat WebApp\n    " = "Chat WebApp" ∧
    fetchesOf (handleProjectLinkClick sampleEnv ⟨"  GitHub ", false, ["project-link"]⟩
        (some (some "\n      Chat WebApp\n    "))
        (fun _ => .resolved ⟨200, .ok [("url", .str "https://example.com")]⟩)).effects
      = [⟨"/api/projects/github", "POST", [("Content-Type", "application/json")],
          some "\x7b\"projectName\":\"Chat WebApp\",\"linkType\":\"GitHub\"\x7d"⟩] :=
  ⟨by decide, by decide, by decide,
    (handleProjectLinkClick_request sampleEnv ⟨"  GitHub ", false, ["project-link"]⟩
      "\n      Chat WebApp\n    "
      (fun _ => .resolved ⟨200, .ok [("url", .str "https://example.com")]⟩)).2.2
      (by decide) (by decide) (by decide)⟩

/-! ## Analytics tracking and the primary action -/

theorem fetchesOf_handleSocialFallback (platform : String) :
    fetchesOf (handleSocialFallback platform) = [] := by
  unfold handleSocialFallback
  split
  · split <;> rfl
  · rfl

/-- C8, as stated, fails: with the analytics routes unreachable and every
other route answering successfully, the resume handler issues the analytics
request only, then logs and alerts (no download anchor); the social handler
never asks the backend for the URL and opens the fallback instead; the nav
handler never fetches the section content. -/
theorem tracking_failure_blocks_primary :
    (makeRequest analyticsDown "/resume/download" "GET" .null).2
      = .ok (.obj [("url", .str "https://example.com/profile"),
          ("downloadUrl", .str "/files/resume.pdf")]) ∧
    (resumeDownloadClick sampleEnv ⟨"Download Resume", false, ["btn"]⟩ analyticsDown).effects
      = [.preventDefault,
          .fetch (requestOf "/analytics/resume-download" "POST" (resumeEvent sampleEnv)),
          .consoleError [.text "API Request failed:", .error ⟨"TypeError", "Failed to fetch"⟩],
          .consoleError
            [.text "Failed to download resume:", .error ⟨"TypeError", "Failed to fetch"⟩],
          .alert "Sorry, unable to download resume at the moment. Please try again later."] ∧
    (socialClick sampleEnv ⟨"", false, []⟩ (some "fab fa-github") analyticsDown).effects
      = [.preventDefault,
          .fetch (requestOf "/analytics/social-click" "POST" (socialEvent sampleEnv "github")),
          .consoleError [.text "API Request failed:", .error ⟨"TypeError", "Failed to fetch"⟩],
          .consoleError
            [.text "Failed to handle github click:", .error ⟨"TypeError", "Failed to fetch"⟩],
          .windowOpen (.str "https://github.com/ranjit") "_blank"] ∧
    (navigationClick sampleEnv ⟨" Skills ", false, []⟩ analyticsDown).effects
      = [.preventDefault, .navActivate,
          .fetch (requestOf "/analytics/navigation" "POST" (navigationEvent sampleEnv "skills")),
          .consoleError [.text "API Request failed:", .error ⟨"TypeError", "Failed to fetch"⟩],
          .consoleError
            [.text "Failed to track navigation to skills:",
              .error ⟨"TypeError", "Failed to fetch"⟩]] :=
  ⟨rfl, rfl, rfl, rfl⟩

/-- C8, amended: a failure of the analytics request never propagates out of
the handler, but it does end the handler's work: the analytics request is the
only request issued and the primary request is skipped.  The resume handler
then logs the failure and shows the alert; the social handler logs it and runs
the fallback for the platform; the nav handler only logs it. -/
theorem tracking_failure_skips_primary (env : Env) (net : Request → FetchOutcome JVal)
    (resumeBtn link target : Element) (classes : String) :
    (∀ e, (resumeTracking env net).2 = .error e →
      (resumeDownloadClick env resumeBtn net).effects
        = .preventDefault :: ((resumeTracking env net).1
            ++ [.consoleError [.text "Failed to download resume:", .error e],
                .alert "Sorry, unable to download resume at the moment. Please try again later."]) ∧
      fetchesOf (resumeDownloadClick env resumeBtn net).effects
        = [requestOf "/analytics/resume-download" "POST" (resumeEvent env)] ∧
      (resumeDownloadClick env resumeBtn net).settled = .ok ()) ∧
    (∀ e, (socialTracking env net (getSocialPlatform classes)).2 = .error e →
      (socialClick env link (some classes) net).effects
        = .preventDefault :: ((socialTracking env net (getSocialPlatform classes)).1
            ++ .consoleError
                [.text ("Failed to handle " ++ getSocialPlatform classes ++ " click:"), .error e]
              :: handleSocialFallback (getSocialPlatform classes)) ∧
      fetchesOf (socialClick env link (some classes) net).effects
        = [requestOf "/analytics/social-click" "POST"
            (socialEvent env (getSocialPlatform classes))] ∧
      (socialClick env link (some classes) net).settled = .ok ()) ∧
    (∀ e, (navigationTracking env net (env.toLowerCase (trim target.textContent))).2 = .error e →
      (navigationClick env target net).effects
        = .preventDefault :: .navActivate ::
            ((navigationTracking env net (env.toLowerCase (trim target.textContent))).1
              ++ [.consoleError
                  [.text ("Failed to track navigation to "
                    ++ env.toLowerCase (trim target.textContent) ++ ":"), .error e]]) ∧
      fetchesOf (navigationClick env target net).effects
        = [requestOf "/analytics/navigation" "POST"
            (navigationEvent env (env.toLowerCase (trim target.textContent)))] ∧
      (navigationClick env target net).settled = .ok ()) := by
  refine ⟨fun e h => ?_, fun e h => ?_, fun e h => ?_⟩
  · have heff : (resumeDownloadClick env resumeBtn net).effects
        = .preventDefault :: ((resumeTracking env net).1
            ++ [.consoleError [.text "Failed to download resume:", .error e],
                .alert "Sorry, unable to download resume at the moment. Please try again later."]) := by
      simp [resumeDownloadClick, resumeTry, h]
    refine ⟨heff, ?_, rfl⟩
    rw [heff]
    simp [fetchesOf, fetchesOf_append, resumeTracking, fetchesOf_makeRequest, resumeEvent]
  · have heff : (socialClick env link (some classes) net).effects
        = .preventDefault :: ((socialTracking env net (getSocialPlatform classes)).1
            ++ .consoleError
                [.text ("Failed to handle " ++ getSocialPlatform classes ++ " click:"), .error e]
              :: handleSocialFallback (getSocialPlatform classes)) := by
      simp [socialClick, socialTry, h]
    refine ⟨heff, ?_, rfl⟩
    rw [heff]
    simp [fetchesOf, fetchesOf_append, socialTracking, fetchesOf_makeRequest, socialEvent,
      fetchesOf_handleSocialFallback]
  · have heff : (navigationClick env target net).effects
        = .preventDefault :: .navActivate ::
            ((navigationTracking env net (env.toLowerCase (trim target.textContent))).1
              ++ [.consoleError
                  [.text ("Failed to track navigation to "
                    ++ env.toLowerCase (trim target.textContent) ++ ":"), .error e]]) := by
      simp [navigationClick, h]
    refine ⟨heff, ?_, rfl⟩
    rw [heff]
    simp [fetchesOf, fetchesOf_append, navigationTracking, fetchesOf_makeRequest, navigationEvent]

theorem tracking_failure_skips_primary_witness :
    (resumeTracking sampleEnv analyticsDown).2 = .error ⟨"TypeError", "Failed to fetch"⟩ ∧
    fetchesOf (resumeDownloadClick sampleEnv ⟨"Download Resume", false, ["btn"]⟩
        analyticsDown).effects
      = [requestOf "/analytics/resume-download" "POST" (resumeEvent sampleEnv)] ∧
    (socialTracking sampleEnv analyticsDown (getSocialPlatform "fab fa-linkedin")).2
      = .error ⟨"TypeError", "Failed to fetch"⟩ ∧
    fetchesOf (socialClick sampleEnv ⟨"", false, []⟩ (some "fab fa-linkedin")
        analyticsDown).effects
      = [requestOf "/analytics/social-click" "POST"
          (socialEvent sampleEnv (getSocialPlatform "fab fa-linkedin"))] ∧
    (navigationTracking sampleEnv analyticsDown
        (sampleEnv.toLowerCase (trim (Element.mk "Home" false []).textContent))).2
      = .error ⟨"TypeError", "Failed to fetch"⟩ ∧
    fetchesOf (navigationClick sampleEnv ⟨"Home", false, []⟩ analyticsDown).effects
      = [requestOf "/analytics/navigation" "POST"
          (navigationEvent sampleEnv
            (sampleEnv.toLowerCase (trim (Element.mk "Home" false []).textContent)))] :=
  ⟨rfl,
    ((tracking_failure_skips_primary sampleEnv analyticsDown ⟨"Download Resume", false, ["btn"]⟩
      ⟨"", false, []⟩ ⟨"Home", false, []⟩ "fab fa-linkedin").1 _ rfl).2.1,
    rfl,
    ((tracking_failure_skips_primary sampleEnv analyticsDown ⟨"Download Resume", false, ["btn"]⟩
      ⟨"", false, []⟩ ⟨"Home", false, []⟩ "fab fa-linkedin").2.1 _ rfl).2.1,
    rfl,
    ((tracking_failure_skips_primary sampleEnv analyticsDown ⟨"Download Resume", false, ["btn"]⟩
      ⟨"", false, []⟩ ⟨"Home", false, []⟩ "fab fa-linkedin").2.2 _ rfl).2.1⟩

/-! ## The request gateway (`makeRequest`) -/

/-- C9, as stated, fails in its third case: a response with a success status
(204) whose body is empty is neither a transport rejection nor a non-success
status, yet `makeRequest` does not return a parsed JSON: `response.json()`
rejects inside the `try` and the error is rethrown. -/
theorem makeRequest_unparsed_body_fails :
    emptyBodyBackend (requestOf "/resume/download" "GET" .null)
      = .resolved ⟨204, .error ⟨"SyntaxError", "Unexpected end of JSON input"⟩⟩ ∧
    (Response.mk 204 (Except.error ⟨"SyntaxError", "Unexpected end of JSON input"⟩ :
      Except JsError JVal)).ok = true ∧
    (makeRequest emptyBodyBackend "/resume/download" "GET" .null).2
      = .error ⟨"SyntaxError", "Unexpected end of JSON input"⟩ :=
  ⟨rfl, rfl, rfl⟩

/-- C9, amended: `makeRequest` performs exactly one `fetch`, of the request
built from its arguments.  If the transport rejects, it fails with that error;
if the response status is outside 200..299 (`response.ok` is false), it fails
with an error whose message carries the status; if the response is a success
whose body parses, it returns the parsed JSON unchanged; if the response is a
success whose body does not parse, it fails with the parse error.  A normal
return happens on the success path only: no failure is turned into a returned
value. -/
theorem makeRequest_contract (net : Request → FetchOutcome JVal) (endpoint method : String)
    (data : JVal) :
    fetchesOf (makeRequest net endpoint method data).1 = [requestOf endpoint method data] ∧
    (∀ e, net (requestOf endpoint method data) = .rejected e →
      (makeRequest net endpoint method data).2 = .error e) ∧
    (∀ r, net (requestOf endpoint method data) = .resolved r → r.ok = false →
      (makeRequest net endpoint method data).2
        = .error ⟨"Error", "HTTP error! status: " ++ toString r.status⟩) ∧
    (∀ r v, net (requestOf endpoint method data) = .resolved r → r.ok = true →
      r.json = .ok v → (makeRequest net endpoint method data).2 = .ok v) ∧
    (∀ r e, net (requestOf endpoint method data) = .resolved r → r.ok = true →
      r.json = .error e → (makeRequest net endpoint method data).2 = .error e) ∧
    (∀ v, (makeRequest net endpoint method data).2 = .ok v →
      ∃ r, net (requestOf endpoint method data) = .resolved r ∧ r.ok = true ∧ r.json = .ok v) := by
  refine ⟨fetchesOf_makeRequest net endpoint method data, ?_, ?_, ?_, ?_, ?_⟩
  · intro e h
    simp [makeRequest, h]
  · intro r h hok
    simp [makeRequest, h, hok]
  · intro r v h hok hjson
    simp [makeRequest, h, hok, hjson]
  · intro r e h hok hjson
    simp [makeRequest, h, hok, hjson]
  · intro v h
    unfold makeRequest at h
    simp only [] at h
    split at h
    · simp at h
    · rename_i r hr
      split at h
      · simp at h
      · rename_i hok
        split at h
        · simp at h
        · rename_i w hw
          refine ⟨r, hr, by simpa using hok, ?_⟩
          simp only [Except.ok.injEq] at h
          rw [hw, h]

theorem makeRequest_contract_witness :
    analyticsDown (requestOf "/social/github" "GET" .null)
      = .resolved ⟨200, .ok (.obj [("url", .str "https://example.com/profile"),
          ("downloadUrl", .str "/files/resume.pdf")])⟩ ∧
    (makeRequest analyticsDown "/social/github" "GET" .null).2
      = .ok (.obj [("url", .str "https://example.com/profile"),
          ("downloadUrl", .str "/files/resume.pdf")]) ∧
    (makeRequest (fun _ => .resolved ⟨404, .ok .null⟩) "/resume/download" "GET" .null).2
      = .error ⟨"Error", "HTTP error! status: 404"⟩ ∧
    (makeRequest analyticsDown "/analytics/page-view" "POST" (.obj [("page", .str "home")])).2
      = .error ⟨"TypeError", "Failed to fetch"⟩ :=
  ⟨rfl,
    (makeRequest_contract analyticsDown "/social/github" "GET" .null).2.2.2.1 _ _ rfl rfl rfl,
    (makeRequest_contract (fun _ => .resolved ⟨404, .ok .null⟩) "/resume/download" "GET"
      .null).2.2.1 _ rfl rfl,
    (makeRequest_contract analyticsDown "/analytics/page-view" "POST"
      (.obj [("page", .str "home")])).2.1 _ rfl⟩

/-! ## Social platforms -/

theorem startsWithChars_iff (sub l : List Char) : startsWithChars sub l = true ↔ sub <+: l := by
  induction sub generalizing l with
  | nil => simp [startsWithChars]
  | cons a as ih =>
    cases l with
    | nil => simp [startsWithChars]
    | cons b bs => simp [startsWithChars, ih, List.cons_prefix_cons]

theorem includesChars_iff (sub l : List Char) : includesChars sub l = true ↔ sub <:+: l := by
  induction l with
  | nil =>
    simp only [includesChars, startsWithChars_iff, List.prefix_nil, List.infix_nil]
  | cons c cs ih =>
    simp only [includesChars, Bool.or_eq_true, startsWithChars_iff, ih, List.infix_cons_iff]

theorem includes_iff (s sub : String) : includes s sub = true ↔ occursIn sub s := by
  unfold includes occursIn
  rw [includesChars_iff]
  constructor
  · rintro ⟨pre, post, h⟩
    refine ⟨⟨pre⟩, ⟨post⟩, ?_⟩
    rw [String.ext_iff]
    simp [← h]
  · rintro ⟨pre, post, h⟩
    refine ⟨pre.data, post.data, ?_⟩
    rw [h]
    simp

theorem includes_twitter_of_x (s : String) (h : includes s "x-twitter" = true) :
    includes s "twitter" = true := by
  rw [includes_iff] at h ⊢
  obtain ⟨pre, post, h⟩ := h
  refine ⟨pre ++ "x-", post, ?_⟩
  rw [h, String.ext_iff]
  simp

/-- C10: for every icon class string `getSocialPlatform` returns one of
`linkedin`, `github`, `twitter`, `instagram`, `unknown`; it returns `unknown`
iff the string contains none of the substrings `linkedin`, `github`, `twitter`,
`instagram`, and otherwise the first of those four, in that order, that occurs
as a substring; and `handleSocialFallback` opens no URL for `unknown`. -/
theorem getSocialPlatform_spec (classes : String) :
    getSocialPlatform classes ∈ ["linkedin", "github", "twitter", "instagram", "unknown"] ∧
    (getSocialPlatform classes = "unknown" ↔
      ¬ occursIn "linkedin" classes ∧ ¬ occursIn "github" classes ∧
      ¬ occursIn "twitter" classes ∧ ¬ occursIn "instagram" classes) ∧
    (occursIn "linkedin" classes → getSocialPlatform classes = "linkedin") ∧
    (¬ occursIn "linkedin" classes → occursIn "github" classes →
      getSocialPlatform classes = "github") ∧
    (¬ occursIn "linkedin" classes → ¬ occursIn "github" classes →
      occursIn "twitter" classes → getSocialPlatform classes = "twitter") ∧
    (¬ occursIn "linkedin" classes → ¬ occursIn "github" classes →
      ¬ occursIn "twitter" classes → occursIn "instagram" classes →
      getSocialPlatform classes = "instagram") ∧
    handleSocialFallback "unknown" = [] := by
  have hx := includes_twitter_of_x classes
  have hfallback : handleSocialFallback "unknown" = [] := rfl
  simp only [← includes_iff, hfallback]
  unfold getSocialPlatform
  cases h1 : includes classes "linkedin" <;> cases h2 : includes classes "github" <;>
    cases h3 : includes classes "twitter" <;> cases h4 : includes classes "instagram" <;>
    cases h5 : includes classes "x-twitter" <;>
    simp_all

theorem getSocialPlatform_spec_witness :
    ¬ occursIn "linkedin" "fa-brands fa-x-twitter github-alt" ∧
    occursIn "github" "fa-brands fa-x-twitter github-alt" ∧
    getSocialPlatform "fa-brands fa-x-twitter github-alt" = "github" ∧
    (getSocialPlatform "fas fa-envelope" = "unknown" ↔
      ¬ occursIn "linkedin" "fas fa-envelope" ∧ ¬ occursIn "github" "fas fa-envelope" ∧
      ¬ occursIn "twitter" "fas fa-envelope" ∧ ¬ occursIn "instagram" "fas fa-envelope") :=
  ⟨fun h => absurd ((includes_iff _ _).mpr h) (by decide),
    (includes_iff _ _).mp (by decide),
    (getSocialPlatform_spec "fa-brands fa-x-twitter github-alt").2.2.2.1
      (fun h => absurd ((includes_iff _ _).mpr h) (by decide))
      ((includes_iff _ _).mp (by decide)),
    (getSocialPlatform_spec "fas fa-envelope").2.1⟩


/-! ## The social fallback -/

theorem openedOf_append (xs ys : List Effect) :
    openedOf (xs ++ ys) = openedOf xs ++ openedOf ys := by
  induction xs with
  | nil => rfl
  | cons x xs ih => cases x <;> simp [openedOf, ih]

theorem openedOf_makeRequest (net : Request → FetchOutcome JVal) (endpoint method : String)
    (data : JVal) : openedOf (makeRequest net endpoint method data).1 = [] := by
  unfold makeRequest
  simp only []
  split
  · rfl
  · split
    · rfl
    · split <;> rfl

theorem openedOf_handleSocialFallback (platform : String) :
    openedOf (handleSocialFallback platform) = fallbackEntry platform := by
  unfold handleSocialFallback fallbackEntry
  cases h : fallbackUrls.lookup platform with
  | none => rfl
  | some url =>
    have hne : url ≠ "" := by
      simp only [fallbackUrls, List.lookup] at h
      repeat' split at h
      all_goals first | (cases h; decide) | cases h
    simp [hne, openedOf]

theorem makeRequest_error_of_fails (net : Request → FetchOutcome JVal) (endpoint method : String)
    (data : JVal) (h : gatewayFails net (requestOf endpoint method data)) :
    ∃ e, (makeRequest net endpoint method data).2 = .error e := by
  rcases h with ⟨e, he⟩ | ⟨r, hr, hok⟩
  · exact ⟨e, by simp [makeRequest, he]⟩
  · exact ⟨⟨"Error", "HTTP error! status: " ++ toString r.status⟩,
      by simp [makeRequest, hr, hok]⟩

/-- The windows opened by the social-icon listener when its `try` block
throws: the fallback entry of the platform and nothing else. -/
theorem openedOf_socialClick_error (env : Env) (net : Request → FetchOutcome JVal)
    (link : Element) (classes : String) (e : JsError)
    (h : (socialTry env net (getSocialPlatform classes)).2 = .error e) :
    openedOf (socialClick env link (some classes) net).effects
      = fallbackEntry (getSocialPlatform classes) := by
  have hbody : openedOf (socialTry env net (getSocialPlatform classes)).1 = [] := by
    unfold socialTry at h ⊢
    simp only [] at h ⊢
    split at h
    · rename_i h1
      simp [h1, socialTracking, openedOf_makeRequest]
    · rename_i h1
      split at h
      · rename_i h2
        simp [h1, h2, socialTracking, openedOf_append, openedOf_makeRequest]
      · split at h
        · split at h <;> simp at h
        · simp at h
  simp [socialClick, h, openedOf, openedOf_append, hbody, openedOf_handleSocialFallback]

theorem socialTry_error_of_fails (env : Env) (net : Request → FetchOutcome JVal)
    (platform : String)
    (h : gatewayFails net (requestOf "/analytics/social-click" "POST" (socialEvent env platform))
      ∨ gatewayFails net (requestOf ("/social/" ++ platform) "GET" .null)) :
    ∃ e, (socialTry env net platform).2 = .error e := by
  unfold socialTry
  simp only []
  cases h1 : (socialTracking env net platform).2 with
  | error e1 => exact ⟨e1, rfl⟩
  | ok t =>
    rcases h with h | h
    · obtain ⟨e, he⟩ := makeRequest_error_of_fails net _ _ _ h
      rw [socialTracking] at h1
      rw [h1] at he
      cases he
    · obtain ⟨e, he⟩ := makeRequest_error_of_fails net _ _ _ h
      exact ⟨e, by simp [he]⟩

theorem getSocialPlatform_linkedin (classes : String) (h : occursIn "linkedin" classes) :
    getSocialPlatform classes = "linkedin" := by
  have := (includes_iff classes "linkedin").mpr h
  simp [getSocialPlatform, this]


theorem truthy_of_getProp {data : JVal} {key : String} {v : JVal}
    (h : getProp data key = some v) : truthy data = true := by
  cases data with
  | obj members => rfl
  | _ => simp [getProp] at h

theorem makeRequest_error_of_throws (net : Request → FetchOutcome JVal)
    (endpoint method : String) (data : JVal)
    (h : gatewayThrows net (requestOf endpoint method data)) :
    ∃ e, (makeRequest net endpoint method data).2 = .error e := by
  rcases h with h | ⟨r, e, hr, hok, hjson⟩
  · exact makeRequest_error_of_fails net endpoint method data h
  · exact ⟨e, by simp [makeRequest, hr, hok, hjson]⟩

theorem makeRequest_ok_of_not_throws (net : Request → FetchOutcome JVal)
    (endpoint method : String) (data : JVal)
    (h : ¬ gatewayThrows net (requestOf endpoint method data)) :
    ∃ v, (makeRequest net endpoint method data).2 = .ok v := by
  cases hnet : net (requestOf endpoint method data) with
  | rejected e => exact absurd (Or.inl (Or.inl ⟨e, hnet⟩)) h
  | resolved r =>
    cases hok : r.ok with
    | false => exact absurd (Or.inl (Or.inr ⟨r, hnet, hok⟩)) h
    | true =>
      cases hjson : r.json with
      | error e => exact absurd (Or.inr ⟨r, e, hnet, hok, hjson⟩) h
      | ok v => exact ⟨v, by simp [makeRequest, hnet, hok, hjson]⟩

theorem socialTry_error_of_throws (env : Env) (net : Request → FetchOutcome JVal)
    (platform : String)
    (h : gatewayThrows net (requestOf "/analytics/social-click" "POST" (socialEvent env platform))
      ∨ gatewayThrows net (requestOf ("/social/" ++ platform) "GET" .null)) :
    ∃ e, (socialTry env net platform).2 = .error e := by
  unfold socialTry
  simp only []
  cases h1 : (socialTracking env net platform).2 with
  | error e1 => exact ⟨e1, rfl⟩
  | ok t =>
    rcases h with h | h
    · obtain ⟨e, he⟩ := makeRequest_error_of_throws net _ _ _ h
      rw [socialTracking] at h1
      rw [h1] at he
      cases he
    · obtain ⟨e, he⟩ := makeRequest_error_of_throws net _ _ _ h
      exact ⟨e, by simp [he]⟩

/-- The social-icon listener when both gateway calls return. -/
theorem socialClick_success (env : Env) (net : Request → FetchOutcome JVal) (link : Element)
    (classes : String) (t data : JVal)
    (h1 : (socialTracking env net (getSocialPlatform classes)).2 = .ok t)
    (h2 : (makeRequest net ("/social/" ++ getSocialPlatform classes) "GET" .null).2 = .ok data) :
    (truthyOpt (getProp data "url") = false →
      (socialClick env link (some classes) net).effects
        = .preventDefault :: ((socialTracking env net (getSocialPlatform classes)).1
            ++ (makeRequest net ("/social/" ++ getSocialPlatform classes) "GET" .null).1
            ++ [.consoleLog [.text ("No URL configured for " ++ getSocialPlatform classes)]]) ∧
      openedOf (socialClick env link (some classes) net).effects = []) ∧
    (∀ url, getProp data "url" = some url → truthy url = true →
      (socialClick env link (some classes) net).effects
        = .preventDefault :: ((socialTracking env net (getSocialPlatform classes)).1
            ++ (makeRequest net ("/social/" ++ getSocialPlatform classes) "GET" .null).1
            ++ [.windowOpen url "_blank"]) ∧
      openedOf (socialClick env link (some classes) net).effects = [(url, "_blank")]) := by
  refine ⟨fun hno => ?_, fun url hurl ht => ?_⟩
  · have heff : (socialClick env link (some classes) net).effects
        = .preventDefault :: ((socialTracking env net (getSocialPlatform classes)).1
            ++ (makeRequest net ("/social/" ++ getSocialPlatform classes) "GET" .null).1
            ++ [.consoleLog [.text ("No URL configured for " ++ getSocialPlatform classes)]]) := by
      simp [socialClick, socialTry, h1, h2, hno]
    refine ⟨heff, ?_⟩
    rw [heff]
    simp [openedOf, openedOf_append, socialTracking, openedOf_makeRequest]
  · have hd : truthy data = true := truthy_of_getProp hurl
    have heff : (socialClick env link (some classes) net).effects
        = .preventDefault :: ((socialTracking env net (getSocialPlatform classes)).1
            ++ (makeRequest net ("/social/" ++ getSocialPlatform classes) "GET" .null).1
            ++ [.windowOpen url "_blank"]) := by
      simp [socialClick, socialTry, h1, h2, hurl, truthyOpt, ht, hd]
    refine ⟨heff, ?_⟩
    rw [heff]
    simp [openedOf, openedOf_append, socialTracking, openedOf_makeRequest]

/-- C11, as stated, fails in its last part: the fallback table is consulted
also when no request fails in the claim's sense.  With every response a 204
with an empty body, neither request is rejected or answered with a non-success
status, yet the listener of a `linkedin` icon opens the LinkedIn fallback: the
body of the analytics response does not parse and `makeRequest` throws. -/
theorem socialClick_fallback_on_unparsed_body :
    ¬ gatewayFails emptyBodyBackend
      (requestOf "/analytics/social-click" "POST" (socialEvent sampleEnv "linkedin")) ∧
    ¬ gatewayFails emptyBodyBackend (requestOf "/social/linkedin" "GET" .null) ∧
    getSocialPlatform "fab fa-linkedin-in" = "linkedin" ∧
    openedOf (socialClick sampleEnv ⟨"", false, []⟩ (some "fab fa-linkedin-in")
        emptyBodyBackend).effects
      = [(.str "https://linkedin.com/in/ranjit", "_blank")] := by
  have hnot : ∀ req, ¬ gatewayFails emptyBodyBackend req := by
    rintro req (⟨e, he⟩ | ⟨r, hr, hok⟩)
    · cases he
    · cases hr
      exact absurd hok (by decide)
  exact ⟨hnot _, hnot _, by decide, rfl⟩

/-- C11, amended: for every social icon, with `p` the platform
`getSocialPlatform` returns for its class, if a gateway request of the click
handler fails (the transport rejects or the status is outside the success
range, for the analytics request or for the request of the social URL), the
handler opens exactly the entry of the fallback table for `p` in a new window;
when the class contains `linkedin` that is exactly
`https://linkedin.com/in/ranjit`.  The table is consulted whenever a gateway
call throws, which besides those failures includes a success response whose
body does not parse, and only then: when neither call throws, both return, the
handler opens the truthy `url` of the social response and nothing else, and a
response without a truthy `url` opens nothing. -/
theorem socialClick_fallback (env : Env) (net : Request → FetchOutcome JVal) (link : Element)
    (classes : String) :
    (occursIn "linkedin" classes →
      (gatewayFails net (requestOf "/analytics/social-click" "POST"
          (socialEvent env (getSocialPlatform classes)))
        ∨ gatewayFails net (requestOf ("/social/" ++ getSocialPlatform classes) "GET" .null)) →
      openedOf (socialClick env link (some classes) net).effects
        = [(.str "https://linkedin.com/in/ranjit", "_blank")]) ∧
    ((gatewayFails net (requestOf "/analytics/social-click" "POST"
          (socialEvent env (getSocialPlatform classes)))
        ∨ gatewayFails net (requestOf ("/social/" ++ getSocialPlatform classes) "GET" .null)) →
      openedOf (socialClick env link (some classes) net).effects
        = fallbackEntry (getSocialPlatform classes)) ∧
    (∀ e, (socialTry env net (getSocialPlatform classes)).2 = .error e →
      openedOf (socialClick env link (some classes) net).effects
        = fallbackEntry (getSocialPlatform classes)) ∧
    (∀ t data, (socialTracking env net (getSocialPlatform classes)).2 = .ok t →
      (makeRequest net ("/social/" ++ getSocialPlatform classes) "GET" .null).2 = .ok data →
      (truthyOpt (getProp data "url") = false →
        (socialClick env link (some classes) net).effects
          = .preventDefault :: ((socialTracking env net (getSocialPlatform classes)).1
              ++ (makeRequest net ("/social/" ++ getSocialPlatform classes) "GET" .null).1
              ++ [.consoleLog [.text ("No URL configured for " ++ getSocialPlatform classes)]]) ∧
        openedOf (socialClick env link (some classes) net).effects = []) ∧
      (∀ url, getProp data "url" = some url → truthy url = true →
        (socialClick env link (some classes) net).effects
          = .preventDefault :: ((socialTracking env net (getSocialPlatform classes)).1
              ++ (makeRequest net ("/social/" ++ getSocialPlatform classes) "GET" .null).1
              ++ [.windowOpen url "_blank"]) ∧
        openedOf (socialClick env link (some classes) net).effects = [(url, "_blank")])) ∧
    ((gatewayThrows net (requestOf "/analytics/social-click" "POST"
          (socialEvent env (getSocialPlatform classes)))
        ∨ gatewayThrows net (requestOf ("/social/" ++ getSocialPlatform classes) "GET" .null)) →
      openedOf (socialClick env link (some classes) net).effects
        = fallbackEntry (getSocialPlatform classes)) ∧
    (¬ gatewayThrows net (requestOf "/analytics/social-click" "POST"
          (socialEvent env (getSocialPlatform classes))) →
      ¬ gatewayThrows net (requestOf ("/social/" ++ getSocialPlatform classes) "GET" .null) →
      ∃ data, (makeRequest net ("/social/" ++ getSocialPlatform classes) "GET" .null).2
          = .ok data ∧
        (socialTry env net (getSocialPlatform classes)).2 = .ok () ∧
        (truthyOpt (getProp data "url") = false →
          openedOf (socialClick env link (some classes) net).effects = []) ∧
        (∀ url, getProp data "url" = some url → truthy url = true →
          openedOf (socialClick env link (some classes) net).effects = [(url, "_blank")])) := by
  have hfail : (gatewayFails net (requestOf "/analytics/social-click" "POST"
          (socialEvent env (getSocialPlatform classes)))
        ∨ gatewayFails net (requestOf ("/social/" ++ getSocialPlatform classes) "GET" .null)) →
      openedOf (socialClick env link (some classes) net).effects
        = fallbackEntry (getSocialPlatform classes) := by
    intro h
    obtain ⟨e, he⟩ := socialTry_error_of_fails env net _ h
    exact openedOf_socialClick_error env net link classes e he
  refine ⟨fun hl h => ?_, hfail, fun e he => openedOf_socialClick_error env net link classes e he,
    fun t data h1 h2 => socialClick_success env net link classes t data h1 h2,
    fun h => ?_, fun hn1 hn2 => ?_⟩
  · rw [hfail h, getSocialPlatform_linkedin classes hl]
    rfl
  · obtain ⟨e, he⟩ := socialTry_error_of_throws env net _ h
    exact openedOf_socialClick_error env net link classes e he
  · obtain ⟨t, h1⟩ := makeRequest_ok_of_not_throws net _ _ _ hn1
    obtain ⟨data, h2⟩ := makeRequest_ok_of_not_throws net _ _ _ hn2
    have h1' : (socialTracking env net (getSocialPlatform classes)).2 = .ok t := h1
    have hs := socialClick_success env net link classes t data h1' h2
    refine ⟨data, h2, ?_, fun hno => (hs.1 hno).2, fun url hurl ht => (hs.2 url hurl ht).2⟩
    unfold socialTry
    simp only [h1', h2]
    split
    · split <;> rfl
    · rfl

theorem socialClick_fallback_witness :
    occursIn "linkedin" "fab fa-linkedin-in" ∧
    gatewayFails analyticsDown (requestOf "/analytics/social-click" "POST"
      (socialEvent sampleEnv (getSocialPlatform "fab fa-linkedin-in"))) ∧
    openedOf (socialClick sampleEnv ⟨"", false, []⟩ (some "fab fa-linkedin-in")
        analyticsDown).effects
      = [(.str "https://linkedin.com/in/ranjit", "_blank")] ∧
    truthyOpt (getProp (JVal.obj []) "url") = false ∧
    openedOf (socialClick sampleEnv ⟨"", false, []⟩ (some "fab fa-linkedin-in")
        emptyBackend).effects = [] ∧
    gatewayThrows emptyBodyBackend (requestOf "/analytics/social-click" "POST"
      (socialEvent sampleEnv (getSocialPlatform "fab fa-github"))) ∧
    openedOf (socialClick sampleEnv ⟨"", false, []⟩ (some "fab fa-github")
        emptyBodyBackend).effects
      = fallbackEntry (getSocialPlatform "fab fa-github") :=
  ⟨(includes_iff _ _).mp (by decide),
    Or.inl ⟨⟨"TypeError", "Failed to fetch"⟩, rfl⟩,
    (socialClick_fallback sampleEnv analyticsDown ⟨"", false, []⟩ "fab fa-linkedin-in").1
      ((includes_iff _ _).mp (by decide)) (Or.inl (Or.inl ⟨⟨"TypeError", "Failed to fetch"⟩, rfl⟩)),
    rfl,
    ((socialClick_fallback sampleEnv emptyBackend ⟨"", false, []⟩ "fab fa-linkedin-in").2.2.2.1
      (.obj []) (.obj []) rfl rfl).1 rfl |>.2,
    Or.inr ⟨_, _, rfl, rfl, rfl⟩,
    (socialClick_fallback sampleEnv emptyBodyBackend ⟨"", false, []⟩ "fab fa-github").2.2.2.2.1
      (Or.inl (Or.inr ⟨_, _, rfl, rfl, rfl⟩))⟩

end Portfolio
